import Mathlib

/-!
Shallow embedding of `src/streamlit_app.py` (AI Calendar Assistant front-end).

Conventions of the embedding:
* Python dicts for conversation turns become the `Turn` structure; a dict key
  that may be absent and whose absence matters (`is_startup_error` on history
  turns) is an `Option`, while keys that default to a falsy value under
  `dict.get` become plain fields with that default.
* Python truthiness is made explicit: a `None`-or-empty-dict `booking_data`
  is `Option.none`; an empty `suggested_times` list is falsy; an empty string
  is falsy (`id`, `pending_time_selection`).
* `st.session_state` becomes the `SessionState` structure; `st.rerun()`
  raises in Streamlit and aborts the rest of the pass, which we model by a
  Bool flag returned next to the new state.
* The network call `requests.post` is modelled by an `HttpResult` value
  describing the transport outcome; `send_message_to_backend` is then a
  total function `HttpResult → Reply`, reflecting that the Python function
  catches every request exception and always returns a reply dict.
* Python `str.lower` becomes `lowerStr` (per-character ASCII lowercasing,
  matching `Char.toLower` over the character sequence), and the `in`
  substring test becomes `strContains`.
-/

/-- Role of a conversation turn (the `role` dict key). -/
inductive Role where
  | user
  | assistant
deriving DecidableEq, BEq, Repr

/-- Backend-supplied booking record (`booking_data` dict).  `id` may be the
empty string, which Python treats as falsy in `booking_data.get("id")`. -/
structure BookingData where
  id : String
  title : String := ""
  start_time : String := ""
  status : String := ""
  html_link : String := ""
deriving DecidableEq, Repr

/-- Normalized backend reply record as returned by `send_message_to_backend`.
`is_startup_error` is absent from genuine backend replies and present (true)
only on the synthetic cold-start reply; `reply.get("is_startup_error")`
yields `False` when absent, so a plain Bool with default `false` is faithful. -/
structure Reply where
  message : String
  booking_data : Option BookingData := none
  suggested_times : List String := []
  requires_confirmation : Bool := false
  is_startup_error : Bool := false
deriving DecidableEq, Repr

/-- One entry of `st.session_state.messages`.  `is_startup_error` is an
`Option Bool` because the chat-input path stores the key explicitly while the
two drain paths omit it from the appended dict. -/
structure Turn where
  role : Role
  content : String
  timestamp : Nat
  booking_data : Option BookingData := none
  suggested_times : List String := []
  requires_confirmation : Bool := false
  is_time_selection : Bool := false
  is_confirmation : Bool := false
  is_startup_error : Option Bool := none
deriving DecidableEq, Repr

/-- The session-scoped mutable state initialized by `init_session_state`
(the `backend_url` and `button_clicked` entries play no role in the claims
and are omitted; `balloons_shown_for_booking` is a Python `set`, modelled as
a duplicate-free list). -/
structure SessionState where
  messages : List Turn
  last_booking_message_index : Int
  last_suggestion_message_index : Int
  balloons_shown_for_booking : List String
  pending_time_selection : Option String
  confirmation_pending : Option String
deriving DecidableEq, Repr

/-- Fresh session state (`init_session_state` on first run). -/
def init_session_state : SessionState :=
  { messages := []
    last_booking_message_index := -1
    last_suggestion_message_index := -1
    balloons_shown_for_booking := []
    pending_time_selection := none
    confirmation_pending := none }

/-- Does `pat` occur as a prefix-at-some-position of `l`?  Helper for the
Python substring test `pat in s`. -/
def containsSeq (pat : List Char) : List Char → Bool
  | [] => pat.isEmpty
  | c :: cs => List.isPrefixOf pat (c :: cs) || containsSeq pat cs

/-- Python `pat in s` substring containment. -/
def strContains (s pat : String) : Bool :=
  containsSeq pat.data s.data

/-- Python `str.lower` (ASCII case folding of each character). -/
def lowerStr (s : String) : String :=
  String.mk (s.data.map Char.toLower)

/-- The fixed phrase list `booking_claim_phrases` of
`should_show_suggestions` (lines 509-513). -/
def booking_claim_phrases : List String :=
  ["i\x27ve created", "i\x27ve made", "i\x27ve added", "created the event",
   "added to your calendar", "event created", "successfully booked",
   "appointment has been", "i\x27m creating", "let me create", "i\x27ve now booked"]

/-- `any(phrase in message_content for phrase in booking_claim_phrases)`
applied to the lowercased content. -/
def hasBookingClaimPhrase (content : String) : Bool :=
  booking_claim_phrases.any (fun p => strContains (lowerStr content) p)

/-- Truthiness of `message.get("booking_data")`: present and non-empty dict. -/
def turnHasBookingDict (m : Turn) : Bool :=
  m.booking_data.isSome

/-- `message.get("booking_data") and message.get("booking_data", {}).get("id")`:
a booking dict whose `id` is a non-empty string. -/
def hasRealBooking (m : Turn) : Bool :=
  match m.booking_data with
  | some bd => !(bd.id == "")
  | none => false

/-- Body of the later-message loop in `should_show_suggestions`
(lines 520-527): a later assistant turn with suggestions, booking data or a
confirmation requirement blocks the display. -/
def laterBlocksSuggestion (t : Turn) : Bool :=
  t.role == Role.assistant &&
    (!t.suggested_times.isEmpty || t.booking_data.isSome || t.requires_confirmation)

/-- Body of the later-message loop in `should_show_confirmation`
(lines 559-565): a later assistant turn with booking data or a confirmation
requirement blocks the display. -/
def laterBlocksConfirmation (t : Turn) : Bool :=
  t.role == Role.assistant && (t.booking_data.isSome || t.requires_confirmation)

/-- `should_show_suggestions(message_index, message)` (lines 493-529), with
the ambient `st.session_state.messages` passed explicitly. -/
def should_show_suggestions (messages : List Turn) (message_index : Nat) (message : Turn) : Bool :=
  !message.suggested_times.isEmpty &&
  !message.booking_data.isSome &&
  message.role == Role.assistant &&
  !hasBookingClaimPhrase message.content &&
  !((messages.drop (message_index + 1)).any laterBlocksSuggestion)

/-- `should_show_booking(message_index, message)` (lines 531-542), with the
ambient `st.session_state.messages` and `last_booking_message_index` passed
explicitly.  The final comparison `message_index == len(messages) - 1` is on
Python ints, hence the `Int` arithmetic. -/
def should_show_booking (last_booking : Int) (messages : List Turn)
    (message_index : Nat) (message : Turn) : Bool :=
  hasRealBooking message &&
  message.role == Role.assistant &&
  ((Int.ofNat message_index == last_booking) ||
    (Int.ofNat message_index == (messages.length : Int) - 1))

/-- `should_show_confirmation(message_index, message)` (lines 544-567). -/
def should_show_confirmation (messages : List Turn) (message_index : Nat) (message : Turn) : Bool :=
  message.requires_confirmation &&
  message.role == Role.assistant &&
  !message.booking_data.isSome &&
  !((messages.drop (message_index + 1)).any laterBlocksConfirmation)

/-- What the history-render loop of `main` (lines 678-688) attaches to one
turn, and what the fresh-reply branch of `enhanced_chat_input_handler`
displays.  `mismatchWarning` and `startupGuidance` name affordances the spec
talks about; the history loop never produces either. -/
inductive RenderAction where
  | bookingConfirmation
  | confirmationPrompt
  | suggestions
  | mismatchWarning
  | startupGuidance
  | nothing
deriving DecidableEq, Repr

/-- The `if should_show_booking ... elif should_show_confirmation ... elif
should_show_suggestions ...` chain of the history-render loop in `main`
(lines 678-688). -/
def render_message_extras (last_booking : Int) (messages : List Turn)
    (message_index : Nat) (message : Turn) : RenderAction :=
  if should_show_booking last_booking messages message_index message then
    RenderAction.bookingConfirmation
  else if should_show_confirmation messages message_index message then
    RenderAction.confirmationPrompt
  else if should_show_suggestions messages message_index message then
    RenderAction.suggestions
  else
    RenderAction.nothing

/-- The synthetic cold-start reply `handle_backend_startup_error`
(lines 123-141), with the full message text of the source. -/
def handle_backend_startup_error : Reply :=
  { message := "🚀 **AI Calendar Assistant is Starting Up**\n\n" ++
      "The service is currently booting up from sleep mode. This is normal for cloud services after periods of inactivity.\n\n" ++
      "⏱️ **Startup Process:**\n" ++
      "- ⚡ Initializing backend service (50-60 seconds)\n" ++
      "- 🔗 Connecting to Google Calendar API\n" ++
      "- 🤖 Loading AI models\n\n" ++
      "💡 **What to do next:**\n" ++
      "1. ⏰ Wait for **60 seconds**\n" ++
      "2. 🔄 **Send your message again**\n" ++
      "3. ✅ Once running, responses will be instant!\n\n" ++
      "🎯 **No need to refresh the page** - just wait and retry your message."
    booking_data := none
    suggested_times := []
    requires_confirmation := false
    is_startup_error := true }

/-- Outcome of the `requests.post` call inside `send_message_to_backend`:
either an HTTP response (status code, raw body text, and — for 200 — the
parsed JSON reply) or one of the request exceptions the function catches,
carrying `str(e)`.  `connectionError` is a `requests.exceptions.ConnectionError`
(a `RequestException` subclass matched by its own handler first);
`requestException` is any other `requests.exceptions.RequestException`. -/
inductive HttpResult where
  | response (status : Nat) (text : String) (json : Reply)
  | readTimeout (e : String)
  | connectTimeout (e : String)
  | connectionError (e : String)
  | requestException (e : String)
deriving DecidableEq, Repr

/-- The keyword list of the `ConnectionError` handler (line 100). -/
def connectionErrorKeywords : List String :=
  ["timeout", "timed out", "read timed out", "connection pool"]

/-- The keyword list of the generic `RequestException` handler (line 113). -/
def requestExceptionKeywords : List String :=
  ["timeout", "timed out", "read timed out", "httpsconnectionpool"]

/-- `send_message_to_backend` (lines 62-121) as a function of the transport
outcome.  Every branch returns a reply record; nothing propagates to the
caller, mirroring the exhaustive `except` clauses of the source. -/
def send_message_to_backend (r : HttpResult) : Reply :=
  match r with
  | HttpResult.response status text json =>
    if status == 200 then json
    else
      { message := "Error: " ++ toString status ++ " - " ++ text
        booking_data := none
        suggested_times := []
        requires_confirmation := false }
  | HttpResult.readTimeout _ => handle_backend_startup_error
  | HttpResult.connectTimeout _ => handle_backend_startup_error
  | HttpResult.connectionError e =>
    if connectionErrorKeywords.any (fun k => strContains (lowerStr e) k) then
      handle_backend_startup_error
    else
      { message := "Connection error: " ++ e ++ ". Please check if the backend is running."
        booking_data := none
        suggested_times := []
        requires_confirmation := false }
  | HttpResult.requestException e =>
    if requestExceptionKeywords.any (fun k => strContains (lowerStr e) k) then
      handle_backend_startup_error
    else
      { message := "Request error: " ++ e
        booking_data := none
        suggested_times := []
        requires_confirmation := false }

/-- A transport-level failure: any outcome other than a 200 response. -/
def isTransportFailure (r : HttpResult) : Bool :=
  match r with
  | HttpResult.response status _ _ => !(status == 200)
  | _ => true

/-- The raw error text that the claim asks to find embedded in the error
reply: status code and body for an HTTP error, `str(e)` for an exception. -/
def errorTextEmbedded (r : HttpResult) (msg : String) : Bool :=
  match r with
  | HttpResult.response status text _ =>
    strContains msg (toString status) && strContains msg text
  | HttpResult.readTimeout e => strContains msg e
  | HttpResult.connectTimeout e => strContains msg e
  | HttpResult.connectionError e => strContains msg e
  | HttpResult.requestException e => strContains msg e

/-- `response.get("booking_data") and response.get("booking_data", {}).get("id")`
on a reply record (`has_booking` in `enhanced_chat_input_handler`, line 240). -/
def hasRealBookingReply (r : Reply) : Bool :=
  match r.booking_data with
  | some bd => !(bd.id == "")
  | none => false

/-- The assistant turn appended by `enhanced_chat_input_handler`
(lines 259-268): the dict stores `is_startup_error` explicitly (with a
`False` default), unlike the drain paths. -/
def assistantTurnFromChatInput (now : Nat) (r : Reply) : Turn :=
  { role := Role.assistant
    content := r.message
    timestamp := now
    booking_data := r.booking_data
    suggested_times := r.suggested_times
    requires_confirmation := r.requires_confirmation
    is_startup_error := some r.is_startup_error }

/-- What the assistant block of `enhanced_chat_input_handler` (lines 209-257)
displays for a fresh reply: the startup branch shows retry guidance
(countdown), otherwise the `has_booking` / `needs_confirmation` /
`has_suggestions` chain runs with no phrase filter. -/
def chat_input_display (r : Reply) : RenderAction :=
  if r.is_startup_error then RenderAction.startupGuidance
  else if hasRealBookingReply r then RenderAction.bookingConfirmation
  else if r.requires_confirmation && !hasRealBookingReply r then RenderAction.confirmationPrompt
  else if !r.suggested_times.isEmpty && !hasRealBookingReply r && !r.requires_confirmation then
    RenderAction.suggestions
  else RenderAction.nothing

/-- The user turn appended by `process_pending_time_selection`
(lines 376-381). -/
def userSelectionTurn (now : Nat) (slot : String) : Turn :=
  { role := Role.user
    content := slot
    timestamp := now
    is_time_selection := true }

/-- The user turn appended by `process_pending_confirmation`
(lines 445-450). -/
def userConfirmationTurn (now : Nat) (answer : String) : Turn :=
  { role := Role.user
    content := answer
    timestamp := now
    is_confirmation := true }

/-- The assistant turn appended by either drain path (lines 387-394 and
453-460): the appended dict has no `is_startup_error` key. -/
def drainAssistantTurn (now : Nat) (r : Reply) : Turn :=
  { role := Role.assistant
    content := r.message
    timestamp := now
    booking_data := r.booking_data
    suggested_times := r.suggested_times
    requires_confirmation := r.requires_confirmation
    is_startup_error := none }

/-- `process_pending_time_selection` (lines 364-404).  `backend` abstracts
`send_message_to_backend`, which never raises (it is total).  The returned
Bool is true when the drain ran and ended in `st.rerun()`, which aborts the
rest of the pass.  The guard `if st.session_state.pending_time_selection:`
uses Python truthiness, so an empty-string slot is not drained. -/
def process_pending_time_selection (backend : String → Reply) (now : Nat)
    (s : SessionState) : SessionState × Bool :=
  match s.pending_time_selection with
  | none => (s, false)
  | some slot =>
    if slot == "" then (s, false)
    else
      let r := backend slot
      let msgs := s.messages ++ [userSelectionTurn now slot, drainAssistantTurn now r]
      let lb := if r.booking_data.isSome then (msgs.length : Int) - 1
                else s.last_booking_message_index
      let ls := if !r.suggested_times.isEmpty then (msgs.length : Int) - 1
                else s.last_suggestion_message_index
      ({ s with pending_time_selection := none
                messages := msgs
                last_booking_message_index := lb
                last_suggestion_message_index := ls }, true)

/-- `process_pending_confirmation` (lines 434-465).  Only the booking index
is updated on this path (lines 462-463). -/
def process_pending_confirmation (backend : String → Reply) (now : Nat)
    (s : SessionState) : SessionState × Bool :=
  match s.confirmation_pending with
  | none => (s, false)
  | some answer =>
    if answer == "" then (s, false)
    else
      let r := backend answer
      let msgs := s.messages ++ [userConfirmationTurn now answer, drainAssistantTurn now r]
      let lb := if r.booking_data.isSome then (msgs.length : Int) - 1
                else s.last_booking_message_index
      ({ s with confirmation_pending := none
                messages := msgs
                last_booking_message_index := lb }, true)

/-- The drain phase at the top of `main` (lines 571-575):
`process_pending_time_selection()` runs first; when it drains, its final
`st.rerun()` raises and `process_pending_confirmation()` never runs in that
pass. -/
def drain_phase (backend : String → Reply) (now : Nat)
    (s : SessionState) : SessionState × Bool :=
  let out := process_pending_time_selection backend now s
  if out.2 then out else process_pending_confirmation backend now out.1

/-- The Clear Conversation button handler in `main` (lines 637-644). -/
def clear_conversation (s : SessionState) : SessionState :=
  { s with messages := []
           last_booking_message_index := -1
           last_suggestion_message_index := -1
           balloons_shown_for_booking := []
           pending_time_selection := none
           confirmation_pending := none }

/-- The balloons logic of `display_booking_confirmation` (lines 305-357),
restricted to its only state effect: given the current
`balloons_shown_for_booking` set, the `booking_data` argument and the
`booking_id` argument, return whether `st.balloons()` fires and the new set.
The surrounding success banners and expander are display-only. -/
def display_booking_confirmation (shown : List String) (bd : Option BookingData)
    (booking_id : String) : Bool × List String :=
  match bd with
  | some b =>
    if !(b.id == "") then
      if !(booking_id == "") && !(shown.contains booking_id) then
        (true, booking_id :: shown)
      else
        (false, shown)
    else
      (false, shown)
  | none => (false, shown)

/-! ### Helper lemmas about string containment -/

theorem strData_append (a b : String) : (a ++ b).data = a.data ++ b.data := by
  cases a; cases b; rfl

theorem strAppend_assoc (a b c : String) : a ++ b ++ c = a ++ (b ++ c) := by
  cases a; cases b; cases c
  exact congrArg String.mk (List.append_assoc _ _ _)

theorem isPrefixOf_append_self (m r : List Char) : List.isPrefixOf m (m ++ r) = true := by
  induction m with
  | nil => simp
  | cons a as ih => simp [ih]

theorem isPrefixOf_self_list (m : List Char) : List.isPrefixOf m m = true := by
  simp [isPrefixOf_append_self m []]

theorem containsSeq_append_of (pre l pat : List Char)
    (h : List.isPrefixOf pat l = true) : containsSeq pat (pre ++ l) = true := by
  induction pre with
  | nil =>
    cases l with
    | nil =>
      cases pat with
      | nil => rfl
      | cons a as => simp at h
    | cons c cs => simp [containsSeq, h]
  | cons p ps ih => simp [containsSeq, ih]

theorem strContains_middle (p m s : String) : strContains (p ++ (m ++ s)) m = true := by
  unfold strContains
  rw [strData_append, strData_append]
  exact containsSeq_append_of p.data (m.data ++ s.data) m.data (isPrefixOf_append_self m.data s.data)

theorem strContains_right (p m : String) : strContains (p ++ m) m = true := by
  unfold strContains
  rw [strData_append]
  exact containsSeq_append_of p.data m.data m.data (isPrefixOf_self_list m.data)

/-! ### C1: mutual exclusivity of the display predicates -/

/-- An assistant turn carrying both a confirmation requirement and non-empty
suggested times, with no booking data. -/
def confSuggTurn : Turn :=
  { role := Role.assistant
    content := "Would you like one of these times?"
    timestamp := 0
    suggested_times := ["10 AM"]
    requires_confirmation := true }

/-- C1 counterexample: in the one-turn log holding `confSuggTurn`
(an assistant turn with `requires_confirmation = true`, non-empty
`suggested_times` and no `booking_data`), both `should_show_confirmation`
and `should_show_suggestions` return `true` at the same render pass, so the
three Display Selector eligibility predicates are not mutually exclusive. -/
theorem display_predicates_not_mutually_exclusive :
    should_show_confirmation [confSuggTurn] 0 confSuggTurn = true ∧
    should_show_suggestions [confSuggTurn] 0 confSuggTurn = true := by
  decide

/-- C1 (amended): booking-confirmation eligibility excludes the other two
predicates — a turn satisfying `should_show_booking` satisfies neither
`should_show_confirmation` nor `should_show_suggestions` — but the
confirmation-prompt and time-slot-picker predicates can both hold for a turn
with `requires_confirmation = true` and non-empty `suggested_times`;
per-turn exclusivity of the rendered affordance comes only from the
`if/elif` priority chain of the history renderer, not from the predicates. -/
theorem booking_display_excludes_other_affordances (lb : Int)
    (messages : List Turn) (i : Nat) (m : Turn)
    (h : should_show_booking lb messages i m = true) :
    should_show_confirmation messages i m = false ∧
    should_show_suggestions messages i m = false := by
  have hsome : m.booking_data.isSome = true := by
    simp only [should_show_booking, Bool.and_eq_true] at h
    obtain ⟨⟨hrb, _⟩, _⟩ := h
    unfold hasRealBooking at hrb
    cases hbd : m.booking_data with
    | none => rw [hbd] at hrb; simp at hrb
    | some bd => simp
  constructor
  · simp [should_show_confirmation, hsome]
  · simp [should_show_suggestions, hsome]

/-- An assistant turn with a real booking id, for the C1 witness. -/
def bookingTurnC1 : Turn :=
  { role := Role.assistant
    content := "Booked!"
    timestamp := 0
    booking_data := some { id := "evt123", title := "Sync" } }

/-- Witness for the amended C1 theorem at a concrete booking turn. -/
theorem booking_display_excludes_other_affordances_witness :
    should_show_booking (-1) [bookingTurnC1] 0 bookingTurnC1 = true ∧
    (should_show_confirmation [bookingTurnC1] 0 bookingTurnC1 = false ∧
      should_show_suggestions [bookingTurnC1] 0 bookingTurnC1 = false) :=
  ⟨by decide,
    booking_display_excludes_other_affordances (-1) [bookingTurnC1] 0 bookingTurnC1 (by decide)⟩

/-! ### C2: draining a pending time selection -/

/-- C2: when the pending time-selection slot holds a (non-empty, hence
Python-truthy) slot string, one drain pass appends exactly one user turn
with `is_time_selection = true` and content equal to that string, then
exactly one assistant turn built from the backend reply, clears the slot,
and ends the pass (`st.rerun`).  The backend function is arbitrary, so this
covers error and cold-start replies: the slot is cleared regardless of the
reply, never restored. -/
theorem drain_time_selection_appends_once (backend : String → Reply) (now : Nat)
    (s : SessionState) (slot : String)
    (hpend : s.pending_time_selection = some slot) (hne : slot ≠ "") :
    (process_pending_time_selection backend now s).1.messages =
      s.messages ++ [userSelectionTurn now slot, drainAssistantTurn now (backend slot)] ∧
    (process_pending_time_selection backend now s).1.pending_time_selection = none ∧
    (process_pending_time_selection backend now s).2 = true := by
  have hbe : (slot == "") = false := by
    simp [hne]
  simp [process_pending_time_selection, hpend, hbe]

/-- Backend stub that always reports the synthetic cold-start reply. -/
def startupBackend : String → Reply := fun _ => handle_backend_startup_error

/-- Session state with a pending time selection, for the C2 witness. -/
def stateC2 : SessionState :=
  { init_session_state with pending_time_selection := some "3:00 PM" }

/-- Witness for C2 at the slot string from the spec and a failing
(cold-start) backend. -/
theorem drain_time_selection_appends_once_witness :
    "3:00 PM" ≠ "" ∧
    ((process_pending_time_selection startupBackend 0 stateC2).1.messages =
      stateC2.messages ++
        [userSelectionTurn 0 "3:00 PM", drainAssistantTurn 0 (startupBackend "3:00 PM")] ∧
    (process_pending_time_selection startupBackend 0 stateC2).1.pending_time_selection = none ∧
    (process_pending_time_selection startupBackend 0 stateC2).2 = true) :=
  ⟨by decide,
    drain_time_selection_appends_once startupBackend 0 stateC2 "3:00 PM" rfl (by decide)⟩

/-! ### C3: transport failures become reply records -/

/-- C3: `send_message_to_backend` is total over every transport outcome —
no failure propagates to the caller — and on any transport-level failure
(read timeout, connect timeout, connection error, other request exception,
non-200 status) the returned record is either the synthetic cold-start
reply, or a record whose message embeds the status code and body text
(resp. the exception text), with `suggested_times = []`,
`booking_data = none` and `requires_confirmation = false`. -/
theorem send_message_transport_failure_returns_reply (r : HttpResult)
    (h : isTransportFailure r = true) :
    send_message_to_backend r = handle_backend_startup_error ∨
    ((send_message_to_backend r).booking_data = none ∧
      (send_message_to_backend r).suggested_times = [] ∧
      (send_message_to_backend r).requires_confirmation = false ∧
      errorTextEmbedded r (send_message_to_backend r).message = true) := by
  cases r with
  | response status text json =>
    right
    have h200 : (status == 200) = false := by
      simpa [isTransportFailure] using h
    refine ⟨?_, ?_, ?_, ?_⟩ <;>
      simp only [send_message_to_backend, h200, Bool.false_eq_true, if_false, errorTextEmbedded]
    rw [Bool.and_eq_true]
    constructor
    · rw [strAppend_assoc, strAppend_assoc]
      exact strContains_middle "Error: " (toString status) (" - " ++ text)
    · exact strContains_right ("Error: " ++ toString status ++ " - ") text
  | readTimeout e => left; rfl
  | connectTimeout e => left; rfl
  | connectionError e =>
    by_cases hk :
        (connectionErrorKeywords.any fun k => strContains (lowerStr e) k) = true
    · left
      simp [send_message_to_backend, hk]
    · right
      have hk' : (connectionErrorKeywords.any fun k => strContains (lowerStr e) k) = false :=
        Bool.not_eq_true _ ▸ Bool.eq_false_iff.mpr hk
      refine ⟨?_, ?_, ?_, ?_⟩ <;>
        simp only [send_message_to_backend, hk', Bool.false_eq_true, if_false, errorTextEmbedded]
      rw [strAppend_assoc]
      exact strContains_middle "Connection error: " e ". Please check if the backend is running."
  | requestException e =>
    by_cases hk :
        (requestExceptionKeywords.any fun k => strContains (lowerStr e) k) = true
    · left
      simp [send_message_to_backend, hk]
    · right
      have hk' : (requestExceptionKeywords.any fun k => strContains (lowerStr e) k) = false :=
        Bool.not_eq_true _ ▸ Bool.eq_false_iff.mpr hk
      refine ⟨?_, ?_, ?_, ?_⟩ <;>
        simp only [send_message_to_backend, hk', Bool.false_eq_true, if_false, errorTextEmbedded]
      exact strContains_right "Request error: " e

/-- Witness for C3 at a concrete non-cold-start request exception. -/
theorem send_message_transport_failure_returns_reply_witness :
    isTransportFailure (HttpResult.requestException "bad request syntax") = true ∧
    (send_message_to_backend (HttpResult.requestException "bad request syntax") =
        handle_backend_startup_error ∨
      ((send_message_to_backend (HttpResult.requestException "bad request syntax")).booking_data = none ∧
        (send_message_to_backend (HttpResult.requestException "bad request syntax")).suggested_times = [] ∧
        (send_message_to_backend (HttpResult.requestException "bad request syntax")).requires_confirmation = false ∧
        errorTextEmbedded (HttpResult.requestException "bad request syntax")
          (send_message_to_backend (HttpResult.requestException "bad request syntax")).message = true)) :=
  ⟨by decide,
    send_message_transport_failure_returns_reply (HttpResult.requestException "bad request syntax")
      (by decide)⟩

/-! ### C4: booking-claim reply with suggestions but no booking data -/

/-- The scenario reply: a booking claim in free text, no structured booking
data, non-empty suggestions. -/
def replyC4 : Reply :=
  { message := "I\x27ve created the event"
    booking_data := none
    suggested_times := ["10 AM", "2 PM"]
    requires_confirmation := false }

/-- The assistant turn the chat-input handler appends for that reply. -/
def turnC4 : Turn := assistantTurnFromChatInput 0 replyC4

/-- C4 counterexample: for the scenario reply, the time-slot-picker is
indeed not eligible under `should_show_suggestions` (phrase filter), but no
mismatch warning is shown to the user anywhere: the history renderer
attaches no affordance at all to the turn (`RenderAction.nothing`, not
`RenderAction.mismatchWarning` — the phrase filter only prints to the
server console), and the fresh chat-input pass even displays the time
slots.  The claimed explicit user-facing warning does not exist in the
code. -/
theorem mismatch_reply_shows_no_warning :
    should_show_suggestions [turnC4] 0 turnC4 = false ∧
    render_message_extras (-1) [turnC4] 0 turnC4 = RenderAction.nothing ∧
    render_message_extras (-1) [turnC4] 0 turnC4 ≠ RenderAction.mismatchWarning ∧
    chat_input_display replyC4 = RenderAction.suggestions ∧
    chat_input_display replyC4 ≠ RenderAction.mismatchWarning := by
  decide

/-- C4 (amended): for the scenario reply, the time-slot-picker is not
eligible under the Display Selector at any index of any log (the
booking-claim phrase filter suppresses it), and the history renderer never
shows a mismatch warning for the turn — the suppression is silent for the
user (console log only), and the immediate chat-input pass still displays
the time slots once. -/
theorem mismatch_reply_picker_suppressed (messages : List Turn) (i : Nat) (lb : Int) :
    should_show_suggestions messages i turnC4 = false ∧
    render_message_extras lb messages i turnC4 ≠ RenderAction.mismatchWarning ∧
    chat_input_display replyC4 = RenderAction.suggestions := by
  refine ⟨?_, ?_, ?_⟩
  · have hcp : hasBookingClaimPhrase turnC4.content = true := by decide
    simp [should_show_suggestions, hcp]
  · unfold render_message_extras
    split_ifs <;> simp
  · decide

/-! ### C5: ReadTimeout reply and its turn are display-inert -/

/-- C5: a `ReadTimeout` on the chat call yields the synthetic cold-start
reply — `is_startup_error = true`, `booking_data = none`,
`suggested_times = []` — and the assistant turn the chat-input handler
appends from it is never eligible for any of the three display affordances,
at any index of any log and for any value of the booking index. -/
theorem readtimeout_reply_never_eligible (e : String) (now : Nat)
    (messages : List Turn) (i : Nat) (lb : Int) :
    (send_message_to_backend (HttpResult.readTimeout e)).is_startup_error = true ∧
    (send_message_to_backend (HttpResult.readTimeout e)).booking_data = none ∧
    (send_message_to_backend (HttpResult.readTimeout e)).suggested_times = [] ∧
    should_show_booking lb messages i
      (assistantTurnFromChatInput now (send_message_to_backend (HttpResult.readTimeout e))) = false ∧
    should_show_confirmation messages i
      (assistantTurnFromChatInput now (send_message_to_backend (HttpResult.readTimeout e))) = false ∧
    should_show_suggestions messages i
      (assistantTurnFromChatInput now (send_message_to_backend (HttpResult.readTimeout e))) = false := by
  refine ⟨rfl, rfl, rfl, ?_, ?_, ?_⟩ <;>
    simp [send_message_to_backend, assistantTurnFromChatInput, handle_backend_startup_error,
      should_show_booking, should_show_confirmation, should_show_suggestions, hasRealBooking]

/-! ### C6: conversation reset clears everything jointly -/

/-- C6: from any session state, the Clear Conversation handler leaves the
message log empty, both derived indices at the sentinel `-1`, the
shown-booking set empty, and both pending-action slots empty — jointly. -/
theorem clear_conversation_resets_all (s : SessionState) :
    (clear_conversation s).messages = [] ∧
    (clear_conversation s).last_booking_message_index = -1 ∧
    (clear_conversation s).last_suggestion_message_index = -1 ∧
    (clear_conversation s).balloons_shown_for_booking = [] ∧
    (clear_conversation s).pending_time_selection = none ∧
    (clear_conversation s).confirmation_pending = none :=
  ⟨rfl, rfl, rfl, rfl, rfl, rfl⟩

/-! ### C7: balloons fire at most once per booking id -/

/-- C7: the celebratory balloons fire at most once per booking identifier:
(a) when a call to `display_booking_confirmation` fires the effect for
`id`, that identifier is in the resulting shown-booking set; (b) once `id`
is in the set, a render for the same identifier does not fire the effect
and leaves the set unchanged; (c) membership survives any later render for
any booking data and identifier, so no later render of a turn carrying
`id` can ever fire the effect again. -/
theorem balloons_fire_at_most_once (shown : List String) (bd bd2 : Option BookingData)
    (id id2 : String) :
    ((display_booking_confirmation shown bd id).1 = true →
      (display_booking_confirmation shown bd id).2.contains id = true) ∧
    (shown.contains id = true →
      (display_booking_confirmation shown bd id).1 = false ∧
      (display_booking_confirmation shown bd id).2 = shown) ∧
    (shown.contains id = true →
      (display_booking_confirmation shown bd2 id2).2.contains id = true) := by
  refine ⟨?_, ?_, ?_⟩
  · intro hfire
    cases bd with
    | none => simp [display_booking_confirmation] at hfire
    | some b =>
      by_cases hbid : b.id = ""
      · simp [display_booking_confirmation, hbid] at hfire
      · by_cases hcond : ¬id = "" ∧ id ∉ shown
        · simp [display_booking_confirmation, hbid, hcond]
        · simp [display_booking_confirmation, hbid, hcond] at hfire
  · intro hmem
    have hmem' : id ∈ shown := by simpa using hmem
    cases bd with
    | none => exact ⟨rfl, rfl⟩
    | some b =>
      by_cases hbid : b.id = ""
      · constructor <;> simp [display_booking_confirmation, hbid]
      · constructor <;> simp [display_booking_confirmation, hbid, hmem']
  · intro hmem
    have hmem' : id ∈ shown := by simpa using hmem
    cases bd2 with
    | none => exact hmem
    | some b =>
      by_cases hbid : b.id = ""
      · simp [display_booking_confirmation, hbid, hmem']
      · by_cases hcond : ¬id2 = "" ∧ id2 ∉ shown
        · simp [display_booking_confirmation, hbid, hcond, hmem']
        · simp [display_booking_confirmation, hbid, hcond, hmem']

/-- Witness for C7: with "evt123" already in the shown set, a render for the
same identifier does not fire the effect and keeps the set unchanged. -/
theorem balloons_fire_at_most_once_witness :
    (display_booking_confirmation ["evt123"] (some { id := "evt123" }) "evt123").1 = false ∧
    (display_booking_confirmation ["evt123"] (some { id := "evt123" }) "evt123").2 = ["evt123"] :=
  (balloons_fire_at_most_once ["evt123"] (some { id := "evt123" }) (some { id := "evt123" })
    "evt123" "evt123").2.1 (by decide)

/-! ### C8: time-selection drain takes priority -/

/-- C8: when both pending-action slots are set at the start of a pass, the
drain phase of `main` drains only the time selection: it appends the two
time-selection turns, clears the time-selection slot, leaves the pending
confirmation untouched, and ends the pass (the drain finishes in
`st.rerun()`, so `process_pending_confirmation` never runs that pass). -/
theorem time_selection_drain_takes_priority (backend : String → Reply) (now : Nat)
    (s : SessionState) (slot c : String)
    (hts : s.pending_time_selection = some slot) (hne : slot ≠ "")
    (hc : s.confirmation_pending = some c) :
    (drain_phase backend now s).1.confirmation_pending = some c ∧
    (drain_phase backend now s).1.pending_time_selection = none ∧
    (drain_phase backend now s).1.messages =
      s.messages ++ [userSelectionTurn now slot, drainAssistantTurn now (backend slot)] ∧
    (drain_phase backend now s).2 = true := by
  have hbe : (slot == "") = false := by
    simp [hne]
  simp [drain_phase, process_pending_time_selection, hts, hbe, hc]

/-- Session state with both pending slots set, for the C8 witness. -/
def stateC8 : SessionState :=
  { init_session_state with
      pending_time_selection := some "3:00 PM"
      confirmation_pending := some "yes" }

/-- Witness for C8 at a concrete state with both slots set. -/
theorem time_selection_drain_takes_priority_witness :
    (drain_phase startupBackend 0 stateC8).1.confirmation_pending = some "yes" ∧
    (drain_phase startupBackend 0 stateC8).1.pending_time_selection = none ∧
    (drain_phase startupBackend 0 stateC8).1.messages =
      stateC8.messages ++
        [userSelectionTurn 0 "3:00 PM", drainAssistantTurn 0 (startupBackend "3:00 PM")] ∧
    (drain_phase startupBackend 0 stateC8).2 = true :=
  time_selection_drain_takes_priority startupBackend 0 stateC8 "3:00 PM" "yes"
    rfl (by decide) rfl

/-! ### C9: the fresh chat-input pass skips the phrase filter -/

/-- C9: on the immediate pass that receives a fresh backend reply (no
startup marker), the chat-input handler displays the time-slot picker
whenever `suggested_times` is non-empty, the booking data has no id, and
`requires_confirmation` is false — the booking-claim phrase filter is not
consulted on this path; yet whenever the reply text does contain a claim
phrase, the very turn appended from this reply fails
`should_show_suggestions` on every subsequent history render. -/
theorem chat_input_skips_phrase_filter (r : Reply) (now : Nat)
    (messages : List Turn) (i : Nat)
    (hs : r.is_startup_error = false) (hne : r.suggested_times ≠ [])
    (hb : hasRealBookingReply r = false) (hc : r.requires_confirmation = false) :
    chat_input_display r = RenderAction.suggestions ∧
    (hasBookingClaimPhrase r.message = true →
      should_show_suggestions messages i (assistantTurnFromChatInput now r) = false) := by
  constructor
  · have hemp : r.suggested_times.isEmpty = false := by
      cases hlist : r.suggested_times with
      | nil => exact absurd hlist hne
      | cons a as => rfl
    simp [chat_input_display, hs, hb, hc, hemp]
  · intro hp
    simp [should_show_suggestions, assistantTurnFromChatInput, hp]

/-- The C9 witness reply: a booking claim in free text together with
suggested times and no booking data. -/
def replyC9 : Reply :=
  { message := "I\x27ve created the event for you"
    suggested_times := ["10 AM", "2 PM"] }

/-- Witness for C9: the picker is displayed once for `replyC9` on the fresh
pass, and the appended turn is filtered on any later history render. -/
theorem chat_input_skips_phrase_filter_witness :
    chat_input_display replyC9 = RenderAction.suggestions ∧
    should_show_suggestions [] 0 (assistantTurnFromChatInput 0 replyC9) = false := by
  have h := chat_input_skips_phrase_filter replyC9 0 [] 0 rfl (by decide) rfl rfl
  exact ⟨h.1, h.2 (by decide)⟩

/-! ### C10: drain-appended assistant turns omit the cold-start marker -/

/-- Session state with both pending slots set, for the C10 witness. -/
def stateC10 : SessionState :=
  { init_session_state with
      pending_time_selection := some "3:00 PM"
      confirmation_pending := some "yes" }

/-- C10: the assistant turns appended by the two drain operations omit the
`is_startup_error` key entirely (modelled as `none`), for every backend
reply — including the synthetic startup reply — because both drains append
`drainAssistantTurn`, whose marker field is always `none`; and the history
renderer never attaches startup retry guidance to any turn, so such a turn
is recorded and rendered as an ordinary assistant answer. -/
theorem drain_turns_omit_startup_marker (backend : String → Reply) (now : Nat)
    (s : SessionState) (slot c : String) (lb : Int)
    (messages : List Turn) (i : Nat) (t : Turn) :
    (drainAssistantTurn now (backend slot)).is_startup_error = none ∧
    (s.pending_time_selection = some slot → slot ≠ "" →
      (process_pending_time_selection backend now s).1.messages =
        s.messages ++ [userSelectionTurn now slot, drainAssistantTurn now (backend slot)]) ∧
    (s.confirmation_pending = some c → c ≠ "" →
      (process_pending_confirmation backend now s).1.messages =
        s.messages ++ [userConfirmationTurn now c, drainAssistantTurn now (backend c)]) ∧
    render_message_extras lb messages i t ≠ RenderAction.startupGuidance := by
  refine ⟨rfl, ?_, ?_, ?_⟩
  · intro hpend hne
    have hbe : (slot == "") = false := by
      simp [hne]
    simp [process_pending_time_selection, hpend, hbe]
  · intro hpend hne
    have hbe : (c == "") = false := by
      simp [hne]
    simp [process_pending_confirmation, hpend, hbe]
  · unfold render_message_extras
    split_ifs <;> simp

/-- Witness for C10 with the cold-start backend: both drains append a turn
whose marker field is `none` even though the reply has the marker set. -/
theorem drain_turns_omit_startup_marker_witness :
    (drainAssistantTurn 0 (startupBackend "3:00 PM")).is_startup_error = none ∧
    (process_pending_time_selection startupBackend 0 stateC10).1.messages =
      stateC10.messages ++
        [userSelectionTurn 0 "3:00 PM", drainAssistantTurn 0 (startupBackend "3:00 PM")] ∧
    (process_pending_confirmation startupBackend 0 stateC10).1.messages =
      stateC10.messages ++
        [userConfirmationTurn 0 "yes", drainAssistantTurn 0 (startupBackend "yes")] ∧
    render_message_extras (-1) [] 0 (drainAssistantTurn 0 (startupBackend "3:00 PM")) ≠
      RenderAction.startupGuidance := by
  have h := drain_turns_omit_startup_marker startupBackend 0 stateC10 "3:00 PM" "yes"
    (-1) [] 0 (drainAssistantTurn 0 (startupBackend "3:00 PM"))
  exact ⟨h.1, h.2.1 rfl (by decide), h.2.2.1 rfl (by decide), h.2.2.2⟩
